import Mathlib

/-!
Shallow embedding of the wtf-peewee model-to-form conversion layer
(`wtfpeewee/orm.py` and `wtfpeewee/fields.py`), used to check the
natural-language specification of the repository against the code.

Python lists that the source mutates in place (the `validators` and
`filters` keyword arguments built up by `ModelConverter.convert`) are
modelled by a small heap: a list of tag lists indexed by address, so the
copy-on-nonempty behaviour of `convert` and the sharing of caller-supplied
`field_args` objects across calls is represented faithfully.
-/

set_option autoImplicit false

namespace WTFPeewee

/-- Python scalar values appearing as field data, choice values and
submitted form values. -/
inductive PyVal where
  | pstr (s : String)
  | pint (n : Int)
  | pbool (b : Bool)
  | pdate (y m d : Int)
  | ptime (hh mm : Int)
  deriving DecidableEq, Repr

/-- Tags identifying the validator and filter objects that
`ModelConverter.convert` appends to its keyword arguments:
`wtforms.validators.Optional()`, `wtforms.validators.Required()`,
`handle_null_filter`, and opaque caller-supplied validators or
filters (numbered). -/
inductive Tag where
  | optionalV
  | requiredV
  | nullFilter
  | customV (n : Nat)
  | customF (n : Nat)
  deriving DecidableEq, Repr

/-- Heap addresses for mutable Python lists. -/
abbrev Addr := Nat

/-- Heap of mutable Python lists of validator/filter objects. -/
abbrev Heap := List (List Tag)

/-- Reading the list stored at an address (out-of-range reads never occur
on addresses produced by `alloc`). -/
def readH (st : Heap) (a : Addr) : List Tag :=
  (st.get? a).getD []

/-- Allocation of a fresh Python list holding `v`. -/
def alloc (st : Heap) (v : List Tag) : Addr × Heap :=
  (st.length, st ++ [v])

/-- In-place `list.append` on the list stored at address `a`. -/
def appendAt (st : Heap) (a : Addr) (t : Tag) : Heap :=
  st.set a (readH st a ++ [t])

/-- Peewee field classes named in `wtfpeewee/orm.py`, together with a
constructor for user-defined field classes registered nowhere (the Python
class universe is open). -/
inductive FieldKind where
  | autoField
  | bigIntegerField
  | doubleField
  | ipField
  | smallIntegerField
  | timestampField
  | bareField
  | blobField
  | booleanField
  | charField
  | dateField
  | dateTimeField
  | decimalField
  | floatField
  | integerField
  | textField
  | timeField
  | uuidField
  | foreignKeyField
  | customField (name : String)
  deriving DecidableEq, Repr

/-- Python `isinstance` on the peewee class hierarchy restricted to the
classes above: reflexive, plus the subclass edges `AutoField <: IntegerField`,
`BigIntegerField <: IntegerField`, `SmallIntegerField <: IntegerField`,
`IPField <: BigIntegerField <: IntegerField`,
`TimestampField <: BigIntegerField <: IntegerField` and
`DoubleField <: FloatField`. -/
def isinst (sub sup : FieldKind) : Bool :=
  sub = sup ||
    match sub, sup with
    | .autoField, .integerField => true
    | .bigIntegerField, .integerField => true
    | .smallIntegerField, .integerField => true
    | .ipField, .bigIntegerField => true
    | .ipField, .integerField => true
    | .timestampField, .bigIntegerField => true
    | .timestampField, .integerField => true
    | .doubleField, .floatField => true
    | _, _ => false

/-- Python `isinstance(field, tuple_of_classes)`. -/
def isinstAny (sub : FieldKind) (l : List FieldKind) : Bool :=
  l.any (fun k => isinst sub k)

/-- Peewee field descriptor as read by `orm.py`: the attributes
`name`, runtime class, `null`, `default`, `verbose_name`, `help_text`,
`choices`, `rel_model` (foreign keys) and whether the field class supplies
its own `wtf_field` conversion hook. -/
structure FieldDesc where
  name : String
  kind : FieldKind
  null : Bool
  default : Option PyVal
  verbose_name : String
  help_text : String
  choices : Option (List (PyVal × String))
  rel_model : String := ""
  has_wtf_field : Bool := false
  deriving DecidableEq, Repr

/-- Python truthiness of the `choices` attribute (`None` and the empty
tuple are falsy). -/
def truthyChoices : Option (List (PyVal × String)) → Bool
  | none => false
  | some l => !l.isEmpty

/-- WTForms field constructors reachable from `ModelConverter`:
the classes in `ModelConverter.defaults`, the query-backed classes used by
`handle_foreign_key`, `SelectChoicesField`, plus opaque constructors for
caller overrides, `wtf_field` hooks and `additional` registered handlers. -/
inductive WTCtor where
  | hiddenF
  | integerF
  | floatF
  | textF
  | textAreaF
  | booleanF
  | decimalF
  | wpDate
  | wpTime
  | wpDateTime
  | selectChoices
  | selectQuery
  | modelSelect
  | overridden
  | wtfCustom
  | additionalF (k : FieldKind)
  deriving DecidableEq, Repr

/-- WTForms field object as constructed by `ModelConverter`: which
constructor ran and the keyword arguments it received.  `validators` and
`filters` are heap addresses of the mutable lists; `filters` is `none`
when the `filters` key was popped (FormField targets) . -/
structure WTField where
  ctor : WTCtor
  validators : Addr
  filters : Option Addr
  label : String
  default : Option PyVal
  description : String
  allowBlank : Option Bool := none
  choices : Option (List (PyVal × String)) := none
  coerceKind : Option FieldKind := none
  relModel : Option String := none
  deriving DecidableEq, Repr

/-- Result of one conversion: `FieldInfo = namedtuple('FieldInfo', ('name', 'field'))`. -/
structure FieldInfo where
  name : String
  field : WTField
  deriving DecidableEq, Repr

/-- Conversion failure: `AttributeError("There is not possible conversion for '%s'" % type(field))`,
carrying the offending field class. -/
inductive ConvError where
  | unsupported (k : FieldKind)
  deriving DecidableEq, Repr

/-- Caller-supplied `field_args` entry for one field: the keyword
arguments recognised by `convert` that the claims exercise.  `validators`
and `filters` are addresses of shared mutable lists. -/
structure FieldArgs where
  validators : Option Addr := none
  filters : Option Addr := none
  choices : Option (List (PyVal × String)) := none
  coerce : Option FieldKind := none
  allow_blank : Option Bool := none
  deriving DecidableEq, Repr

/-- Python truthiness of a `field_args` dict (an empty dict is falsy). -/
def faTruthy (fa : FieldArgs) : Bool :=
  fa.validators.isSome || fa.filters.isSome || fa.choices.isSome ||
    fa.coerce.isSome || fa.allow_blank.isSome

/-- Converter state: `ModelConverter(additional, additional_coerce, overrides)`.
`overrides` holds the overridden field names, `additional` the extra
registered special-handler classes, `additionalCoerce` the extra keys of
`coerce_settings`. -/
structure Converter where
  overrides : List String := []
  additional : List FieldKind := []
  additionalCoerce : List FieldKind := []
  deriving DecidableEq, Repr

/-- Entries of `ModelConverter.defaults`, in source order. -/
def defaultsTable : List (FieldKind × WTCtor) :=
  [ (.autoField, .hiddenF),
    (.bigIntegerField, .integerF),
    (.doubleField, .floatF),
    (.ipField, .textF),
    (.smallIntegerField, .integerF),
    (.timestampField, .wpDateTime),
    (.bareField, .textF),
    (.blobField, .textAreaF),
    (.booleanField, .booleanF),
    (.charField, .textF),
    (.dateField, .wpDate),
    (.dateTimeField, .wpDateTime),
    (.decimalField, .decimalF),
    (.floatField, .floatF),
    (.integerField, .integerF),
    (.textField, .textAreaF),
    (.timeField, .wpTime),
    (.uuidField, .textF) ]

/-- Keys of `ModelConverter.coerce_defaults`. -/
def coerceDefaults : List FieldKind :=
  [ .bigIntegerField, .charField, .doubleField, .floatField,
    .integerField, .smallIntegerField, .textField, .uuidField ]

/-- The `ModelConverter.required` tuple, in source order. -/
def requiredTuple : List FieldKind :=
  [ .charField, .dateTimeField, .foreignKeyField, .autoField,
    .textField, .uuidField ]

/-- Predicate for `issubclass(self.defaults[converter], f.FormField)`:
among the registered targets only `WPDateTimeField` subclasses `FormField`. -/
def isFormFieldCtor (c : WTCtor) : Bool :=
  c = .wpDateTime

/-- Keyword-argument record threaded into the dispatch part of `convert`. -/
structure KwArgs where
  vaddr : Addr
  faddr : Addr
  label : String
  default : Option PyVal
  description : String
  choicesKw : Option (List (PyVal × String))
  coerceKw : Option FieldKind
  abKw : Option Bool

/-- Embedding of `ModelConverter.handle_foreign_key`. -/
def handle_foreign_key (f : FieldDesc) (kw : KwArgs) : FieldInfo :=
  let ab : Option Bool := if f.null then some true else kw.abKw
  let allowBlank := ab.getD false
  if f.choices.isSome then
    { name := f.name,
      field := { ctor := .selectQuery, validators := kw.vaddr,
                 filters := some kw.faddr, label := kw.label,
                 default := kw.default, description := kw.description,
                 allowBlank := some allowBlank } }
  else
    { name := f.name,
      field := { ctor := .modelSelect, validators := kw.vaddr,
                 filters := some kw.faddr, label := kw.label,
                 default := kw.default, description := kw.description,
                 allowBlank := some allowBlank,
                 relModel := some f.rel_model } }

/-- Dispatch part of `ModelConverter.convert` (source lines 141-180): the
name-override check, the `wtf_field` hook, the special-handler registry
walk, and the defaults-registry walk with the fixed-choices branch.  This
part of `convert` only constructs field objects; it does not touch the
heap. -/
def dispatch (conv : Converter) (f : FieldDesc) (kw : KwArgs) :
    Except ConvError FieldInfo :=
  if f.name ∈ conv.overrides then
    .ok { name := f.name,
          field := { ctor := .overridden, validators := kw.vaddr,
                     filters := some kw.faddr, label := kw.label,
                     default := kw.default, description := kw.description } }
  else if f.has_wtf_field then
    .ok { name := f.name,
          field := { ctor := .wtfCustom, validators := kw.vaddr,
                     filters := some kw.faddr, label := kw.label,
                     default := kw.default, description := kw.description } }
  else
    match (FieldKind.foreignKeyField :: conv.additional).find?
        (fun k => isinst f.kind k) with
    | some k =>
        if k = .foreignKeyField then
          .ok (handle_foreign_key f kw)
        else
          .ok { name := f.name,
                field := { ctor := .additionalF k, validators := kw.vaddr,
                           filters := some kw.faddr, label := kw.label,
                           default := kw.default,
                           description := kw.description } }
    | none =>
        match defaultsTable.find? (fun p => isinst f.kind p.1) with
        | some (k, ctor) =>
            let filtersOut : Option Addr :=
              if isFormFieldCtor ctor then none else some kw.faddr
            if truthyChoices f.choices || kw.choicesKw.isSome then
              let choices := kw.choicesKw.getD (f.choices.getD [])
              if k ∈ (coerceDefaults ++ conv.additionalCoerce) ||
                  kw.coerceKw.isSome then
                let coerceKind := kw.coerceKw.getD k
                let allowBlank := kw.abKw.getD f.null
                .ok { name := f.name,
                      field := { ctor := .selectChoices,
                                 validators := kw.vaddr,
                                 filters := filtersOut, label := kw.label,
                                 default := kw.default,
                                 description := kw.description,
                                 allowBlank := some allowBlank,
                                 choices := some choices,
                                 coerceKind := some coerceKind } }
              else
                .ok { name := f.name,
                      field := { ctor := ctor, validators := kw.vaddr,
                                 filters := filtersOut, label := kw.label,
                                 default := kw.default,
                                 description := kw.description } }
            else
              .ok { name := f.name,
                    field := { ctor := ctor, validators := kw.vaddr,
                               filters := filtersOut, label := kw.label,
                               default := kw.default,
                               description := kw.description } }
        | none => .error (.unsupported f.kind)

/-- Embedding of `handle_null_filter`: maps the empty string to `None`
and leaves every other value unchanged (`data == ''` is false for `None`
and for non-string values). -/
def handle_null_filter (data : Option PyVal) : Option PyVal :=
  if data = some (.pstr "") then none else data

/-- Keyword-argument construction phase of `ModelConverter.convert`
(source lines 116-139): allocate the fresh `validators`/`filters` lists,
merge a truthy `field_args` dict, copy a caller-supplied non-empty
validator list, append `handle_null_filter` for nullable fields and the
`Optional`/`Required` validator. -/
def buildKw (f : FieldDesc) (fargs : Option FieldArgs) (st : Heap) :
    KwArgs × Heap :=
  let (vaddr0, st1) := alloc st []
  let (faddr0, st2) := alloc st1 []
  let useFa := match fargs with
    | some fa => faTruthy fa
    | none => false
  let fa := fargs.getD {}
  let vaddr1 := if useFa then fa.validators.getD vaddr0 else vaddr0
  let faddr1 := if useFa then fa.filters.getD faddr0 else faddr0
  let choicesKw := if useFa then fa.choices else none
  let coerceKw := if useFa then fa.coerce else none
  let abKw := if useFa then fa.allow_blank else none
  let (vaddr2, st3) :=
    if readH st2 vaddr1 ≠ [] then alloc st2 (readH st2 vaddr1)
    else (vaddr1, st2)
  let st4 := if f.null then appendAt st3 faddr1 .nullFilter else st3
  let st5 :=
    if (f.null || f.default.isSome) && !truthyChoices f.choices then
      appendAt st4 vaddr2 .optionalV
    else if isinstAny f.kind requiredTuple then
      appendAt st4 vaddr2 .requiredV
    else st4
  ({ vaddr := vaddr2, faddr := faddr1, label := f.verbose_name,
     default := f.default, description := f.help_text,
     choicesKw := choicesKw, coerceKw := coerceKw, abKw := abKw }, st5)

/-- Embedding of `ModelConverter.convert` (source lines 115-180): build
the keyword arguments, then dispatch. -/
def convert (conv : Converter) (f : FieldDesc) (fargs : Option FieldArgs)
    (st : Heap) : Except ConvError (FieldInfo × Heap) :=
  match buildKw f fargs st with
  | (kw, st5) =>
    match dispatch conv f kw with
    | .ok fi => .ok (fi, st5)
    | .error e => .error e

/-- Python truthiness of the `only`/`exclude` arguments of `model_fields`
(`None` and an empty sequence are falsy). -/
def truthyNames : Option (List String) → Bool
  | none => false
  | some l => !l.isEmpty

/-- Lookup in the `field_args` dict. -/
def lookupArgs (args : List (String × FieldArgs)) (n : String) :
    Option FieldArgs :=
  (args.find? (fun p => p.1 = n)).map Prod.snd

/-- Descriptor selection part of `model_fields`: drop the first descriptor
(the primary key) unless `allow_pk`, then apply the truthy `only` filter,
else the truthy `exclude` filter. -/
def selectFields (sortedFields : List FieldDesc) (allow_pk : Bool)
    (only exclude : Option (List String)) : List FieldDesc :=
  let mf := if allow_pk then sortedFields else sortedFields.drop 1
  if truthyNames only then
    mf.filter (fun x => x.name ∈ only.getD [])
  else if truthyNames exclude then
    mf.filter (fun x => !(x.name ∈ exclude.getD []))
  else mf

/-- Conversion loop of `model_fields`, threading the heap and failing fast
on the first conversion error. -/
def convertAll (conv : Converter) (args : List (String × FieldArgs)) :
    List FieldDesc → Heap → Except ConvError (List FieldInfo × Heap)
  | [], st => .ok ([], st)
  | f :: rest, st =>
    match convert conv f (lookupArgs args f.name) st with
    | .error e => .error e
    | .ok (fi, st1) =>
      match convertAll conv args rest st1 with
      | .error e => .error e
      | .ok (tail, st2) => .ok (fi :: tail, st2)

/-- Embedding of `model_fields`: the ordered name-to-field mapping, or the
first conversion error. -/
def model_fields (conv : Converter) (sortedFields : List FieldDesc)
    (allow_pk : Bool) (only exclude : Option (List String))
    (args : List (String × FieldArgs)) (st : Heap) :
    Except ConvError (List FieldInfo × Heap) :=
  convertAll conv args (selectFields sortedFields allow_pk only exclude) st

/-- Embedding of `model_form`: builds the field dict with `model_fields`
and attaches it to a new form type; the observable content of the
generated form class is exactly the field mapping. -/
def model_form (conv : Converter) (sortedFields : List FieldDesc)
    (allow_pk : Bool) (only exclude : Option (List String))
    (args : List (String × FieldArgs)) (st : Heap) :
    Except ConvError (List FieldInfo × Heap) :=
  model_fields conv sortedFields allow_pk only exclude args st

/-! Embeddings from `wtfpeewee/fields.py`. -/

/-- Python exception classes relevant to the coercion paths of
`SelectChoicesField` (`except (ValueError, TypeError)` versus
`except ValueError`). -/
inductive PyErr where
  | valueError
  | typeError
  deriving DecidableEq, Repr

instance {ε α : Type} [DecidableEq ε] [DecidableEq α] :
    DecidableEq (Except ε α) := fun x y =>
  match x, y with
  | .ok a, .ok b =>
    if h : a = b then .isTrue (by rw [h])
    else .isFalse (fun hh => h (by injection hh))
  | .ok _, .error _ => .isFalse (fun hh => Except.noConfusion hh)
  | .error _, .ok _ => .isFalse (fun hh => Except.noConfusion hh)
  | .error a, .error b =>
    if h : a = b then .isTrue (by rw [h])
    else .isFalse (fun hh => h (by injection hh))

/-- State of a `SelectChoicesField`: static choices, coercion function,
blank handling, and the current `data` value. -/
structure SelectChoicesField where
  choices : List (PyVal × String)
  coerce : PyVal → Except PyErr PyVal
  allow_blank : Bool
  blank_text : String
  data : Option PyVal

/-- Loop body of `SelectChoicesField.iter_choices`: one triple per
declared `(value, label)` pair in order, selected when the coerced value
equals `data`; a coercion exception aborts the iteration. -/
def choiceTriples (coerce : PyVal → Except PyErr PyVal)
    (data : Option PyVal) :
    List (PyVal × String) → Except PyErr (List (PyVal × String × Bool))
  | [] => .ok []
  | p :: rest =>
    match coerce p.1 with
    | .error e => .error e
    | .ok c =>
      match choiceTriples coerce data rest with
      | .error e => .error e
      | .ok tl => .ok ((p.1, p.2, decide (some c = data)) :: tl)

/-- Embedding of `SelectChoicesField.iter_choices`: an optional blank
sentinel triple first, then the loop over the declared choices. -/
def SelectChoicesField.iter_choices (f : SelectChoicesField) :
    Except PyErr (List (PyVal × String × Bool)) :=
  match choiceTriples f.coerce f.data f.choices with
  | .error e => .error e
  | .ok tl =>
    .ok ((if f.allow_blank then
        [(PyVal.pstr "__None", f.blank_text, decide (f.data = none))]
      else []) ++ tl)

/-- Embedding of `SelectChoicesField.process_data`: `None` stays `None`,
a coercion failure (`ValueError` or `TypeError`) silently yields `None`;
the method never raises. -/
def SelectChoicesField.process_data (f : SelectChoicesField)
    (value : Option PyVal) : Option PyVal :=
  match value with
  | none => none
  | some v =>
    match f.coerce v with
    | .ok c => some c
    | .error _ => none

/-- Outcome classes of `SelectChoicesField.process_formdata`: the raised
`ValueError` with message `Invalid Choice: could not coerce`, or an
exception class the method does not catch. -/
inductive FormdataErr where
  | invalidChoice
  | uncaught (e : PyErr)
  deriving DecidableEq, Repr

/-- Embedding of `SelectChoicesField.process_formdata`: the sentinel
`__None` yields `None`; a `ValueError` from coercion is re-raised as
`Invalid Choice: could not coerce`; a `TypeError` is not caught.  Returns
the new `data` on success. -/
def SelectChoicesField.process_formdata (f : SelectChoicesField)
    (valuelist : List PyVal) : Except FormdataErr (Option PyVal) :=
  match valuelist with
  | [] => .ok f.data
  | v :: _ =>
    if v = .pstr "__None" then .ok none
    else
      match f.coerce v with
      | .ok c => .ok (some c)
      | .error .valueError => .error .invalidChoice
      | .error .typeError => .error (.uncaught .typeError)

/-- Row of the target model of a query-backed field: integer primary key
plus its display label. -/
structure Row where
  pk : Int
  label : String
  deriving DecidableEq, Repr

/-- Parse of a non-empty all-digit character list into a natural
number. -/
def parseNatChars (l : List Char) : Option Nat :=
  if l ≠ [] && l.all Char.isDigit then
    some (l.foldl (fun n c => n * 10 + (c.toNat - 48)) 0)
  else none

/-- Parse of a decimal integer literal, as accepted by Python `int`
(modelled; an optional leading minus sign followed by digits). -/
def parseIntStr (s : String) : Option Int :=
  match s.data with
  | '-' :: rest => (parseNatChars rest).map (fun n => -(n : Int))
  | l => (parseNatChars l).map (fun n => (n : Int))

/-- SQL comparison of an integer primary-key column against a submitted
Python value, as executed by `query.where(primary_key == value)` (SQLite
integer affinity converts numeric strings). -/
def pkMatches (rowPk : Int) (raw : PyVal) : Bool :=
  match raw with
  | .pint n => n = rowPk
  | .pstr s => parseIntStr s = some rowPk
  | _ => false

/-- State of a `SelectQueryField`: the deferred query (materialised as its
current rows), the blank options, the stored `_data` and the pending raw
`_formdata`. -/
structure SelectQueryField where
  query : List Row
  allow_blank : Bool
  blank_text : String
  storedData : Option Row := none
  storedFormdata : Option PyVal := none
  deriving DecidableEq, Repr

/-- Embedding of `SelectQueryField.get_model`: first row of the query
whose primary key matches, else `None` (`DoesNotExist` is caught). -/
def SelectQueryField.get_model (f : SelectQueryField) (pk : PyVal) :
    Option Row :=
  f.query.find? (fun r => pkMatches r.pk pk)

/-- Read of the `data` property (`_get_data`): a pending raw identifier is
resolved against the query and cached. -/
def SelectQueryField.getData (f : SelectQueryField) :
    Option Row × SelectQueryField :=
  match f.storedFormdata with
  | some raw =>
    let d := f.get_model raw
    (d, { f with storedData := d, storedFormdata := none })
  | none => (f.storedData, f)

/-- Write of the `data` property (`_set_data`): clears any pending raw
identifier. -/
def SelectQueryField.setData (f : SelectQueryField) (d : Option Row) :
    SelectQueryField :=
  { f with storedData := d, storedFormdata := none }

/-- Embedding of `SelectQueryField.process_formdata`: the sentinel
`__None` rebinds to `None`; any other submitted value is stored raw, with
resolution deferred. -/
def SelectQueryField.process_formdata (f : SelectQueryField)
    (valuelist : List PyVal) : SelectQueryField :=
  match valuelist with
  | [] => f
  | v :: _ =>
    if v = .pstr "__None" then f.setData none
    else { f with storedData := none, storedFormdata := some v }

/-- Embedding of `SelectQueryField.pre_validate`: a resolved instance must
still satisfy the query, otherwise `Not a valid choice`; a missing value
with blank disallowed raises `Selection cannot be blank`. -/
def SelectQueryField.pre_validate (f : SelectQueryField) :
    Except String Unit × SelectQueryField :=
  let (d, f1) := f.getData
  match d with
  | some r =>
    if f1.query.any (fun q => q.pk = r.pk) then (.ok (), f1)
    else (.error "Not a valid choice", f1)
  | none =>
    if f1.allow_blank then (.ok (), f1)
    else (.error "Selection cannot be blank", f1)

/-- State of a `SelectMultipleQueryField`.  Its constructor pops the
`allow_blank` keyword argument, so the attribute keeps the
`SelectQueryField.__init__` default `False`. -/
structure SelectMultipleQueryField where
  query : List Row
  allow_blank : Bool := false
  storedData : Option (List Row) := none
  storedFormdata : Option (List Int) := none
  deriving DecidableEq, Repr

/-- Embedding of `SelectMultipleQueryField.__init__`: the `allow_blank`
argument is popped and discarded. -/
def SelectMultipleQueryField.make (query : List Row)
    (allowBlankArg : Option Bool) : SelectMultipleQueryField :=
  let _ := allowBlankArg
  { query := query }

/-- Embedding of `SelectMultipleQueryField.get_model_list`: rows of the
query whose primary key is among the submitted identifiers (empty input
short-circuits to the empty list). -/
def SelectMultipleQueryField.get_model_list (f : SelectMultipleQueryField)
    (pks : List Int) : List Row :=
  if pks.isEmpty then [] else f.query.filter (fun r => r.pk ∈ pks)

/-- Read of the multi-select `data` property: pending identifiers are
resolved (dropping the ones matching no row) and cached; `self._data or []`
turns a missing value into the empty list. -/
def SelectMultipleQueryField.getData (f : SelectMultipleQueryField) :
    List Row × SelectMultipleQueryField :=
  match f.storedFormdata with
  | some pks =>
    let d := f.get_model_list pks
    (d, { f with storedData := some d, storedFormdata := none })
  | none => (f.storedData.getD [], f)

/-- Embedding of `SelectMultipleQueryField.process_formdata`: stores the
submitted identifiers raw (after `int` coercion, modelled by the input
type) with resolution deferred. -/
def SelectMultipleQueryField.process_formdata (f : SelectMultipleQueryField)
    (valuelist : List Int) : SelectMultipleQueryField :=
  match valuelist with
  | [] => f
  | _ => { f with storedData := some [], storedFormdata := some valuelist }

/-- Count of rows of the query whose primary key is among `ids`
(`query.where(primary_key << id_list).count()`). -/
def countWhere (query : List Row) (ids : List Int) : Nat :=
  (query.filter (fun r => r.pk ∈ ids)).length

/-- Embedding of `SelectMultipleQueryField.pre_validate`: with a non-empty
resolved list, the count of rows matching its identifiers must equal the
number of identifiers, else `Not a valid choice`; an empty resolved list
passes silently. -/
def SelectMultipleQueryField.pre_validate (f : SelectMultipleQueryField) :
    Except String Unit × SelectMultipleQueryField :=
  let (d, f1) := f.getData
  if d.isEmpty then (.ok (), f1)
  else
    let ids := d.map Row.pk
    if !ids.isEmpty && countWhere f1.query ids != ids.length then
      (.error "Not a valid choice", f1)
    else (.ok (), f1)

/-- Calendar date value (`datetime.date`). -/
structure DateV where
  year : Int
  month : Int
  day : Int
  deriving DecidableEq, Repr

/-- Time-of-day value (`datetime.time`, to minute precision as used by
`WPDateTimeField`). -/
structure TimeV where
  hour : Int
  minute : Int
  deriving DecidableEq, Repr

/-- Combined value (`datetime.datetime.combine`). -/
structure DateTimeV where
  date : DateV
  time : TimeV
  deriving DecidableEq, Repr

/-- Midnight, `datetime.time(0, 0)`. -/
def midnightTime : TimeV := ⟨0, 0⟩

/-- Python `self.time.data or datetime.time(0, 0)`: extensionally equal to
defaulting a missing value to midnight, since the falsy time values are
exactly `None` and (under Python 2 truthiness) midnight itself, and `or`
then yields midnight anyway. -/
def timeOrMidnight (t : Option TimeV) : TimeV :=
  t.getD midnightTime

/-- Sub-field state of a `WPDateTimeField`: the parsed values of its date
and time sub-fields. -/
structure WPDateTimeState where
  dateData : Option DateV
  timeData : Option TimeV
  deriving DecidableEq, Repr

/-- Embedding of the `WPDateTimeField.data` property: combine the date
sub-value with the time sub-value (midnight when missing); a missing date
yields `None` (the `if date_data:` guard falls through, returning `None`,
and date objects are always truthy). -/
def WPDateTimeState.data (s : WPDateTimeState) : Option DateTimeV :=
  let t := timeOrMidnight s.timeData
  match s.dateData with
  | some d => some ⟨d, t⟩
  | none => none

/-! Model of the WTForms single-input field processing pipeline.

Modelled external collaborator (the `wtforms` package, outside this
repository): `Field.process` runs `process_formdata` on the submitted
value (a parse failure records a process error and leaves `data`
unchanged), then applies the filters in order; `Field.validate` seeds the
error list with the process errors and runs the validator chain, where
`Optional` clears all errors and stops with success on empty raw input and
`Required` fails on falsy data.  Numeric and date/time parsing is modelled
on integer literals and dashed/colon formats; the claims rely only on the
parse failure of the empty string. -/

/-- Split of a character list on a separator character. -/
def splitChars (sep : Char) : List Char → List (List Char)
  | [] => [[]]
  | c :: rest =>
    match splitChars sep rest with
    | [] => [[]]
    | g :: gs => if c = sep then [] :: g :: gs else (c :: g) :: gs

/-- Parse of a date input, `strptime` with format `%Y-%m-%d` (modelled). -/
def parseDateStr (s : String) : Option (Int × Int × Int) :=
  match (splitChars '-' s.data).map parseNatChars with
  | [some y, some m, some d] => some ((y : Int), (m : Int), (d : Int))
  | _ => none

/-- Parse of a time input, `WPTimeField.convert` with formats `%H:%M:%S`
then `%H:%M` (modelled; seconds are dropped at minute precision). -/
def parseTimeStr (s : String) : Option (Int × Int) :=
  match (splitChars ':' s.data).map parseNatChars with
  | [some h, some m, some _] => some ((h : Int), (m : Int))
  | [some h, some m] => some ((h : Int), (m : Int))
  | _ => none

/-- Python truthiness of a field data value. -/
def pyTruthy : Option PyVal → Bool
  | none => false
  | some (.pstr s) => s ≠ ""
  | some (.pint n) => n ≠ 0
  | some (.pbool b) => b
  | some (.pdate _ _ _) => true
  | some (.ptime _ _) => true

/-- Modelled `process_formdata` of each single-input target field class:
text-like fields store the raw string, the boolean field blindly coerces
(`bool('')` is `False`), numeric and date/time fields parse or record a
process error.  Constructors that are not single-input simple fields are
out of the scope of this pipeline. -/
def formdataParse (c : WTCtor) (raw : String) :
    Except String (Option PyVal) :=
  match c with
  | .textF | .textAreaF | .hiddenF => .ok (some (.pstr raw))
  | .booleanF =>
    .ok (some (.pbool (if raw = "false" then false else raw ≠ "")))
  | .integerF =>
    match parseIntStr raw with
    | some n => .ok (some (.pint n))
    | none => .error "Not a valid integer value"
  | .floatF =>
    match parseIntStr raw with
    | some n => .ok (some (.pint n))
    | none => .error "Not a valid float value"
  | .decimalF =>
    match parseIntStr raw with
    | some n => .ok (some (.pint n))
    | none => .error "Not a valid decimal value"
  | .wpDate =>
    match parseDateStr raw with
    | some (y, m, d) => .ok (some (.pdate y m d))
    | none => .error "Not a valid date value"
  | .wpTime =>
    match parseTimeStr raw with
    | some (h, m) => .ok (some (.ptime h m))
    | none => .error "Not a valid time value"
  | _ => .ok none

/-- Filter application by tag: the only filter `convert` registers is
`handle_null_filter`; opaque caller-supplied filters never occur in the
claims and are modelled as identity. -/
def applyFilterTag (t : Tag) (d : Option PyVal) : Option PyVal :=
  match t with
  | .nullFilter => handle_null_filter d
  | _ => d

/-- Emptiness check of the raw submitted value used by the `Optional`
validator (`not raw or not raw.strip()`). -/
def rawEmptyStr : Option String → Bool
  | none => true
  | some s => s.data.all Char.isWhitespace

/-- Modelled validator chain: `Optional` clears accumulated errors and
stops with success on empty raw input, `Required` fails on falsy data;
opaque caller-supplied validators pass. -/
def runChain (raw : Option String) (data : Option PyVal)
    (procErr : Bool) : List Tag → Bool
  | [] => !procErr
  | t :: rest =>
    match t with
    | .optionalV =>
      if rawEmptyStr raw then true else runChain raw data procErr rest
    | .requiredV =>
      if !pyTruthy data then false else runChain raw data procErr rest
    | _ => runChain raw data procErr rest

/-- Modelled single-input pipeline for a field with no default value:
process the submitted raw value, apply the filters, then validate.
Returns the final `data` and whether the field validates. -/
def processAndValidate (c : WTCtor) (filters validators : List Tag)
    (raw : Option String) : Option PyVal × Bool :=
  let (d1, procErr) :=
    match raw with
    | none => (none, false)
    | some s =>
      match formdataParse c s with
      | .ok v => (v, false)
      | .error _ => (none, true)
  let d2 := filters.foldl (fun d t => applyFilterTag t d) d1
  (d2, runChain raw d2 procErr validators)

/-- Constructors whose generated fields take one raw input value through
the standard WTForms pipeline. -/
def singleInputCtors : List WTCtor :=
  [ .textF, .textAreaF, .hiddenF, .booleanF, .integerF, .floatF,
    .decimalF, .wpDate, .wpTime ]

/-- Validators that the rule in `convert` (source lines 133-139) appends
for a descriptor: `Optional` when the field is nullable or has a non-null
default and has no truthy choices, else `Required` when the field is an
instance of the `required` tuple, else nothing. -/
def ruleValidators (f : FieldDesc) : List Tag :=
  if (f.null || f.default.isSome) && !truthyChoices f.choices then
    [.optionalV]
  else if isinstAny f.kind requiredTuple then [.requiredV]
  else []

/-- Keyword arguments reaching the dispatch when no `field_args` override
is supplied: fresh validator list at `st.length`, fresh filter list right
after it. -/
def kwNone (f : FieldDesc) (st : Heap) : KwArgs :=
  { vaddr := st.length, faddr := st.length + 1, label := f.verbose_name,
    default := f.default, description := f.help_text,
    choicesKw := none, coerceKw := none, abKw := none }

/-- Heap produced by `convert` with no `field_args` override: two fresh
lists, the null filter appended to the second for nullable fields, and the
rule validator appended to the first. -/
def convertHeapNone (f : FieldDesc) (st : Heap) : Heap :=
  let st2 := st ++ [[], []]
  let st4 :=
    if f.null then appendAt st2 (st.length + 1) .nullFilter else st2
  if (f.null || f.default.isSome) && !truthyChoices f.choices then
    appendAt st4 st.length .optionalV
  else if isinstAny f.kind requiredTuple then
    appendAt st4 st.length .requiredV
  else st4

/-- Modelled from the spec: the required set as the claim enumerates it —
identifier (`AutoField`), short text (`CharField`), long text
(`TextField`), date-time (`DateTimeField`) and foreign key
(`ForeignKeyField`) — omitting `UUIDField`, which the source includes. -/
def specRequiredTags : List FieldKind :=
  [ .autoField, .charField, .textField, .dateTimeField, .foreignKeyField ]

/-! Concrete fixtures used by witnesses and counterexamples, mirroring the
models of `wtfpeewee/tests.py` (`NonIntPKModel`, `Entry`,
`NullFieldsModel`, `ChoicesModel`, `Blog`). -/

/-- Primary key `id = CharField(primary_key=True)` of `NonIntPKModel`. -/
def idDesc : FieldDesc :=
  { name := "id", kind := .charField, null := false, default := none,
    verbose_name := "Id", help_text := "", choices := none }

/-- Field `value = CharField()` of `NonIntPKModel`. -/
def valueDesc : FieldDesc :=
  { name := "value", kind := .charField, null := false, default := none,
    verbose_name := "Value", help_text := "", choices := none }

/-- Sorted fields of `NonIntPKModel`. -/
def nonIntPkFields : List FieldDesc := [idDesc, valueDesc]

/-- Shared mutable `field_args` object
`{'id': {'validators': [...]}}`, whose validator list lives at heap
address 0. -/
def sharedArgs : List (String × FieldArgs) :=
  [("id", { validators := some 0 })]

/-- Field mapping of the first form generated from `NonIntPKModel` with a
shared non-empty validator override at address 0. -/
def form1Fields : List FieldInfo :=
  [ { name := "id",
      field := { ctor := .textF, validators := 3, filters := some 2,
                 label := "Id", default := none, description := "" } },
    { name := "value",
      field := { ctor := .textF, validators := 4, filters := some 5,
                 label := "Value", default := none, description := "" } } ]

/-- Heap after the first generation, for override content `vs`. -/
def heap1 (vs : List Tag) : Heap :=
  [vs, [], [], vs ++ [.requiredV], [.requiredV], []]

/-- Field mapping of the second form generated from the same shared
override object. -/
def form2Fields : List FieldInfo :=
  [ { name := "id",
      field := { ctor := .textF, validators := 8, filters := some 7,
                 label := "Id", default := none, description := "" } },
    { name := "value",
      field := { ctor := .textF, validators := 9, filters := some 10,
                 label := "Value", default := none, description := "" } } ]

/-- Heap after the second generation. -/
def heap2 (vs : List Tag) : Heap :=
  [vs, [], [], vs ++ [.requiredV], [.requiredV], [], [], [],
   vs ++ [.requiredV], [.requiredV], []]

/-- First form generated from `NonIntPKModel` with a shared EMPTY
validator-list override at address 0. -/
def form1cx : List FieldInfo :=
  [ { name := "id",
      field := { ctor := .textF, validators := 0, filters := some 2,
                 label := "Id", default := none, description := "" } },
    { name := "value",
      field := { ctor := .textF, validators := 3, filters := some 4,
                 label := "Value", default := none, description := "" } } ]

/-- Heap after the first generation from the empty shared override: the
rule validator was appended IN PLACE to the shared list at address 0. -/
def heap1cx : Heap := [[.requiredV], [], [], [.requiredV], []]

/-- Second form generated from the same (now non-empty) shared object. -/
def form2cx : List FieldInfo :=
  [ { name := "id",
      field := { ctor := .textF, validators := 7, filters := some 6,
                 label := "Id", default := none, description := "" } },
    { name := "value",
      field := { ctor := .textF, validators := 8, filters := some 9,
                 label := "Value", default := none, description := "" } } ]

/-- Heap after the second generation from the empty shared override. -/
def heap2cx : Heap :=
  [[.requiredV], [], [], [.requiredV], [], [], [],
   [.requiredV, .requiredV], [.requiredV], []]

/-- Field `u = UUIDField()`: not nullable, no default, no choices. -/
def uuidDesc : FieldDesc :=
  { name := "u", kind := .uuidField, null := false, default := none,
    verbose_name := "U", help_text := "", choices := none }

/-- Field object produced by converting the UUID descriptor on an empty
heap. -/
def uuidFI : FieldInfo :=
  { name := "u",
    field := { ctor := .textF, validators := 0, filters := some 1,
               label := "U", default := none, description := "" } }

/-- Heap produced by converting the UUID descriptor on an empty heap. -/
def uuidHeap : Heap := [[.requiredV], []]

/-- Field object produced by converting `idDesc` on an empty heap with no
override. -/
def idFI : FieldInfo :=
  { name := "id",
    field := { ctor := .textF, validators := 0, filters := some 1,
               label := "Id", default := none, description := "" } }

/-- Heap produced by converting `idDesc` on an empty heap with no
override. -/
def idHeap : Heap := [[.requiredV], []]

/-- Sorted fields of `Entry`: auto primary key, foreign key to `Blog`,
two text fields and a date-time field with a default. -/
def entryFields : List FieldDesc :=
  [ { name := "pk", kind := .autoField, null := false, default := none,
      verbose_name := "Pk", help_text := "", choices := none },
    { name := "blog", kind := .foreignKeyField, null := false,
      default := none, verbose_name := "Blog", help_text := "",
      choices := none, rel_model := "Blog" },
    { name := "title", kind := .charField, null := false, default := none,
      verbose_name := "Wacky title", help_text := "", choices := none },
    { name := "content", kind := .textField, null := false,
      default := none, verbose_name := "Content", help_text := "",
      choices := none },
    { name := "pub_date", kind := .dateTimeField, null := false,
      default := some (.pstr "now"), verbose_name := "Pub Date",
      help_text := "", choices := none } ]

/-- Field mapping produced for `Entry` with `only=('title','content')`. -/
def entryOnlyR : List FieldInfo :=
  [ { name := "title",
      field := { ctor := .textF, validators := 0, filters := some 1,
                 label := "Wacky title", default := none,
                 description := "" } },
    { name := "content",
      field := { ctor := .textAreaF, validators := 2, filters := some 3,
                 label := "Content", default := none,
                 description := "" } } ]

/-- Heap accompanying `entryOnlyR`. -/
def entryOnlyHeap : Heap := [[.requiredV], [], [.requiredV], []]

/-- Field mapping produced for `Entry` with an empty `only` list and
`exclude=('title',)` supplied together. -/
def entryBothR : List FieldInfo :=
  [ { name := "blog",
      field := { ctor := .modelSelect, validators := 0, filters := some 1,
                 label := "Blog", default := none, description := "",
                 allowBlank := some false, relModel := some "Blog" } },
    { name := "content",
      field := { ctor := .textAreaF, validators := 2, filters := some 3,
                 label := "Content", default := none,
                 description := "" } },
    { name := "pub_date",
      field := { ctor := .wpDateTime, validators := 4, filters := none,
                 label := "Pub Date", default := some (.pstr "now"),
                 description := "" } } ]

/-- Heap accompanying `entryBothR`. -/
def entryBothHeap : Heap :=
  [[.requiredV], [], [.requiredV], [], [.optionalV], []]

/-- Descriptor of a user-defined peewee field class registered nowhere. -/
def geoDesc : FieldDesc :=
  { name := "geo", kind := .customField "GeoField", null := false,
    default := none, verbose_name := "Geo", help_text := "",
    choices := none }

/-- Field `c = CharField(null=True)` of `NullFieldsModel`. -/
def cDesc : FieldDesc :=
  { name := "c", kind := .charField, null := true, default := none,
    verbose_name := "C", help_text := "", choices := none }

/-- Field `b = BooleanField(null=True)` of `NullFieldsModel`. -/
def boolNullDesc : FieldDesc :=
  { name := "b", kind := .booleanField, null := true, default := none,
    verbose_name := "B", help_text := "", choices := none }

/-- Field object produced by converting the nullable `CharField` `c` on
an empty heap. -/
def cFI : FieldInfo :=
  { name := "c",
    field := { ctor := .textF, validators := 0, filters := some 1,
               label := "C", default := none, description := "" } }

/-- Heap produced by converting `cDesc` on an empty heap. -/
def cHeap : Heap := [[.optionalV], [.nullFilter]]

/-- Field object produced by converting the nullable `BooleanField` `b`
on an empty heap. -/
def boolFI : FieldInfo :=
  { name := "b",
    field := { ctor := .booleanF, validators := 0, filters := some 1,
               label := "B", default := none, description := "" } }

/-- Heap produced by converting `boolNullDesc` on an empty heap. -/
def boolHeap : Heap := [[.optionalV], [.nullFilter]]

/-- Rows with primary keys 1 and 2, as in the two-blog test fixture. -/
def mrow1 : Row := ⟨1, "a"⟩

/-- Second fixture row. -/
def mrow2 : Row := ⟨2, "b"⟩

/-- Model of the `text_type` coercion (total on scalar values). -/
def coerceText (v : PyVal) : Except PyErr PyVal :=
  match v with
  | .pstr s => .ok (.pstr s)
  | .pint n => .ok (.pstr (toString n))
  | .pbool b => .ok (.pstr (if b then "True" else "False"))
  | .pdate _ _ _ => .ok (.pstr "date")
  | .ptime _ _ => .ok (.pstr "time")

/-- Model of the `int` coercion: numeric strings parse, other strings
raise `ValueError`, date and time objects raise `TypeError`. -/
def coerceInt (v : PyVal) : Except PyErr PyVal :=
  match v with
  | .pint n => .ok (.pint n)
  | .pstr s =>
    match parseIntStr s with
    | some n => .ok (.pint n)
    | none => .error .valueError
  | .pbool b => .ok (.pint (if b then 1 else 0))
  | .pdate _ _ _ => .error .typeError
  | .ptime _ _ => .error .typeError

/-- Unselected gender choice field of `ChoicesModel`, with blank allowed. -/
def genderField : SelectChoicesField :=
  { choices := [(.pstr "m", "Male"), (.pstr "f", "Female")],
    coerce := coerceText, allow_blank := true,
    blank_text := "----------------", data := none }

/-- Integer-coerced choice field used to exercise the coercion error
paths. -/
def statusField : SelectChoicesField :=
  { choices := [(.pint 1, "One"), (.pint 2, "Two")],
    coerce := coerceInt, allow_blank := false,
    blank_text := "----------------", data := none }

/-- Enumeration produced by the unselected gender field, matching the
spec's worked example. -/
def genderL : List (PyVal × String × Bool) :=
  [ (.pstr "__None", "----------------", true),
    (.pstr "m", "Male", false), (.pstr "f", "Female", false) ]

/-- Unbound single-select query field with blank disallowed. -/
def blankSQF : SelectQueryField :=
  { query := [mrow1], allow_blank := false, blank_text := "x" }

/-- Multi-select field bound directly to the two fixture rows. -/
def multiBound : SelectMultipleQueryField :=
  { query := [mrow1, mrow2], storedData := some [mrow1, mrow2] }

/-! Helper lemmas. -/

theorem SelectQueryField.getData_allow_blank (f : SelectQueryField) :
    (f.getData).2.allow_blank = f.allow_blank := by
  cases h : f.storedFormdata <;> simp [SelectQueryField.getData, h]

theorem SelectMultipleQueryField.getData_query
    (f : SelectMultipleQueryField) : (f.getData).2.query = f.query := by
  cases h : f.storedFormdata <;> simp [SelectMultipleQueryField.getData, h]

/-! Claim C9. -/

/-- C9: reading the combined `data` of the composite date-time field
returns the date sub-value combined with the time sub-value, substituting
midnight when the time value is missing, and returns `None` whenever the
date value is missing. -/
theorem wpdatetime_data_combines :
    (∀ t, (WPDateTimeState.mk none t).data = none) ∧
    (∀ d, (WPDateTimeState.mk (some d) none).data =
      some ⟨d, midnightTime⟩) ∧
    (∀ d t, (WPDateTimeState.mk (some d) (some t)).data = some ⟨d, t⟩) :=
  ⟨fun _ => rfl, fun _ => rfl, fun _ _ => rfl⟩

/-! Claim C10. -/

/-- C10: for a choice field, binding a value whose coercion raises a
value or type error silently sets `data` to `None` (no exception), as does
binding `None`; the coercion exception surfaces only from
`process_formdata`, as `Invalid Choice: could not coerce` for a
`ValueError` (a `TypeError` there is not caught). -/
theorem select_choices_coerce_error_paths (f : SelectChoicesField)
    (v : PyVal) (e : PyErr) (hv : v ≠ .pstr "__None")
    (he : f.coerce v = .error e) :
    f.process_data (some v) = none ∧
    f.process_data none = none ∧
    f.process_formdata [v] =
      (if e = .valueError then .error .invalidChoice
       else .error (.uncaught e)) := by
  refine ⟨?_, rfl, ?_⟩
  · simp [SelectChoicesField.process_data, he]
  · cases e <;> simp [SelectChoicesField.process_formdata, hv, he]

/-- Witness for C10 at the integer-coerced status field and the
non-numeric input `x`. -/
theorem select_choices_coerce_error_paths_witness :
    ((PyVal.pstr "x" ≠ PyVal.pstr "__None") ∧
      statusField.coerce (.pstr "x") = .error .valueError) ∧
    (statusField.process_data (some (.pstr "x")) = none ∧
     statusField.process_data none = none ∧
     statusField.process_formdata [.pstr "x"] =
       (if PyErr.valueError = .valueError then .error .invalidChoice
        else .error (.uncaught .valueError))) :=
  ⟨⟨by decide, by decide⟩,
    select_choices_coerce_error_paths statusField (.pstr "x") .valueError
      (by decide) (by decide)⟩

/-! Claim C7. -/

/-- C7 (amended): a single-select query-backed field with blank disallowed
fails pre-validation with `Selection cannot be blank` when no value is
resolved; the multi-select variant, by contrast, accepts an empty resolved
list silently (its `pre_validate` has no blank branch). -/
theorem select_query_blank_disallowed (f : SelectQueryField)
    (f1 : SelectQueryField) (hab : f.allow_blank = false)
    (hd : f.getData = (none, f1)) :
    (f.pre_validate).1 = .error "Selection cannot be blank" ∧
    (∀ g : SelectMultipleQueryField, (g.getData).1 = [] →
      (g.pre_validate).1 = .ok ()) := by
  constructor
  · have hab1 : f1.allow_blank = false := by
      have := f.getData_allow_blank
      rw [hd] at this
      rw [← this] at hab
      exact hab
    simp [SelectQueryField.pre_validate, hd, hab1]
  · intro g hg
    rcases hgd : g.getData with ⟨d, g1⟩
    rw [hgd] at hg
    simp at hg
    simp [SelectMultipleQueryField.pre_validate, hgd, hg]

/-- Witness for C7 at an unbound blank-disallowed single-select field. -/
theorem select_query_blank_disallowed_witness :
    (blankSQF.allow_blank = false ∧ blankSQF.getData = (none, blankSQF)) ∧
    ((blankSQF.pre_validate).1 = .error "Selection cannot be blank" ∧
     (∀ g : SelectMultipleQueryField, (g.getData).1 = [] →
       (g.pre_validate).1 = .ok ())) :=
  ⟨⟨rfl, rfl⟩, select_query_blank_disallowed blankSQF blankSQF rfl rfl⟩

/-- Counterexample for C7 as stated: a multi-select query-backed field is
constructed with blank disallowed (its constructor pops `allow_blank`, so
the attribute is `False`), yet pre-validation with an empty resolved list
succeeds instead of failing with `Selection cannot be blank`. -/
theorem select_multiple_blank_accepted :
    (SelectMultipleQueryField.make [mrow1] (some false)).allow_blank
      = false ∧
    (((SelectMultipleQueryField.make [mrow1] (some false)).getData).1
      = []) ∧
    (((SelectMultipleQueryField.make [mrow1] (some false)).pre_validate).1
      = .ok ()) := by
  decide

/-! Claim C6. -/

/-- C6 (amended): with a non-empty resolved data list, multi-select
pre-validation succeeds exactly when the count of query rows whose primary
key is among the resolved identifiers equals the number of resolved
identifiers, and the only possible failure is `Not a valid choice`.
Identifiers submitted for rows absent from the query are dropped during
resolution, so they do not count (see the counterexample for the claim as
stated). -/
theorem multi_pre_validate_count (f : SelectMultipleQueryField)
    (d : List Row) (f1 : SelectMultipleQueryField)
    (hd : f.getData = (d, f1)) (hne : d ≠ []) :
    ((f.pre_validate).1 = .ok () ↔
      countWhere f.query (d.map Row.pk) = d.length) ∧
    ((f.pre_validate).1 = .ok () ∨
      (f.pre_validate).1 = .error "Not a valid choice") := by
  have hq : f1.query = f.query := by
    have := f.getData_query
    rw [hd] at this
    exact this
  have hids : (d.map Row.pk) ≠ [] := by
    simpa using hne
  have hpre : (f.pre_validate).1 =
      (if countWhere f.query (d.map Row.pk) = d.length then Except.ok ()
       else Except.error "Not a valid choice") := by
    simp [SelectMultipleQueryField.pre_validate, hd, hne, hids, hq]
    split <;> rfl
  by_cases hc : countWhere f.query (d.map Row.pk) = d.length <;>
    simp [hpre, hc]

/-- Witness for C6 at a multi-select field bound to both fixture rows. -/
theorem multi_pre_validate_count_witness :
    (multiBound.getData = ([mrow1, mrow2], multiBound) ∧
      ([mrow1, mrow2] : List Row) ≠ []) ∧
    (((multiBound.pre_validate).1 = .ok () ↔
       countWhere multiBound.query ([mrow1, mrow2].map Row.pk)
         = ([mrow1, mrow2] : List Row).length) ∧
     ((multiBound.pre_validate).1 = .ok () ∨
      (multiBound.pre_validate).1 = .error "Not a valid choice")) :=
  ⟨⟨rfl, by decide⟩,
    multi_pre_validate_count multiBound [mrow1, mrow2] multiBound rfl
      (by decide)⟩

/-- Counterexample for C6 as stated: against a query with rows 1 and 2,
submitting the identifiers 1 and 999 yields successful pre-validation,
although only one query row matches the two submitted identifiers — the
stale identifier is silently dropped at resolution instead of failing with
`Not a valid choice` (the repository's own test asserts this success). -/
theorem multi_stale_id_validates :
    ((((SelectMultipleQueryField.make [mrow1, mrow2] none).process_formdata
        [1, 999]).pre_validate).1 = .ok ()) ∧
    countWhere [mrow1, mrow2] [1, 999] ≠ ([1, 999] : List Int).length := by
  decide

/-! Claim C5. -/

theorem choiceTriples_parts (coerce : PyVal → Except PyErr PyVal)
    (data : Option PyVal) :
    ∀ (l : List (PyVal × String)) (r : List (PyVal × String × Bool)),
      choiceTriples coerce data l = .ok r →
      r.length = l.length ∧
      ∀ i (hi : i < l.length),
        ∃ c, coerce (l.get ⟨i, hi⟩).1 = .ok c ∧
          r.get? i = some ((l.get ⟨i, hi⟩).1, (l.get ⟨i, hi⟩).2,
            decide (some c = data)) := by
  intro l
  induction l with
  | nil =>
    intro r h
    simp [choiceTriples] at h
    subst h
    exact ⟨rfl, fun i hi => absurd hi (by simp)⟩
  | cons p rest ih =>
    intro r h
    unfold choiceTriples at h
    cases hga : coerce p.1 with
    | error e => rw [hga] at h; exact absurd h (by simp)
    | ok c =>
      rw [hga] at h
      cases hm : choiceTriples coerce data rest with
      | error e => rw [hm] at h; exact absurd h (by simp)
      | ok tl =>
        rw [hm] at h
        simp at h
        subst h
        obtain ⟨hlen, hnth⟩ := ih tl hm
        refine ⟨by simp [hlen], ?_⟩
        intro i hi
        cases i with
        | zero => exact ⟨c, hga, by simp⟩
        | succ j =>
          obtain ⟨b, hb1, hb2⟩ := hnth j (by simpa using hi)
          exact ⟨b, by simpa using hb1, by simpa using hb2⟩

/-- C5: option enumeration of a choice field yields the declared choices
in order, each triple selected exactly when its coerced value equals the
current data, prefixed — exactly when blank is allowed — by exactly one
blank sentinel triple `(__None, blank_text, selected iff data is None)`. -/
theorem iter_choices_enumeration (f : SelectChoicesField)
    (L : List (PyVal × String × Bool)) (h : f.iter_choices = .ok L) :
    L.length = f.choices.length + (if f.allow_blank then 1 else 0) ∧
    (f.allow_blank = true →
      L.get? 0 = some (.pstr "__None", f.blank_text,
        decide (f.data = none))) ∧
    ∀ i (hi : i < f.choices.length),
      ∃ c, f.coerce (f.choices.get ⟨i, hi⟩).1 = .ok c ∧
        L.get? (i + (if f.allow_blank then 1 else 0)) =
          some ((f.choices.get ⟨i, hi⟩).1, (f.choices.get ⟨i, hi⟩).2,
            decide (some c = f.data)) := by
  unfold SelectChoicesField.iter_choices at h
  cases hm : choiceTriples f.coerce f.data f.choices with
  | error e => rw [hm] at h; exact absurd h (by simp)
  | ok tl =>
    rw [hm] at h
    simp at h
    obtain ⟨hlen, hnth⟩ := choiceTriples_parts f.coerce f.data f.choices
      tl hm
    cases hab : f.allow_blank with
    | false =>
      rw [hab] at h
      simp at h
      subst h
      refine ⟨by simp [hlen], by simp, ?_⟩
      intro i hi
      simpa using hnth i hi
    | true =>
      rw [hab] at h
      simp at h
      subst h
      refine ⟨by simp [hlen], by simp, ?_⟩
      intro i hi
      obtain ⟨c, hc1, hc2⟩ := hnth i hi
      exact ⟨c, hc1, by simpa using hc2⟩

/-- Witness for C5 at the unselected gender field with blank allowed,
reproducing the spec's worked enumeration. -/
theorem iter_choices_enumeration_witness :
    genderField.iter_choices = .ok genderL ∧
    (genderL.length = genderField.choices.length
        + (if genderField.allow_blank then 1 else 0) ∧
     (genderField.allow_blank = true →
       genderL.get? 0 = some (.pstr "__None", genderField.blank_text,
         decide (genderField.data = none))) ∧
     ∀ i (hi : i < genderField.choices.length),
       ∃ c, genderField.coerce (genderField.choices.get ⟨i, hi⟩).1
           = .ok c ∧
         genderL.get? (i + (if genderField.allow_blank then 1 else 0)) =
           some ((genderField.choices.get ⟨i, hi⟩).1,
             (genderField.choices.get ⟨i, hi⟩).2,
             decide (some c = genderField.data))) :=
  ⟨by decide, iter_choices_enumeration genderField genderL (by decide)⟩

/-! Heap lemmas. -/

@[simp]
theorem length_appendAt (st : Heap) (a : Addr) (t : Tag) :
    (appendAt st a t).length = st.length := by
  simp [appendAt]

@[simp]
theorem readH_append_pair_fst (st : Heap) (v w : List Tag) :
    readH (st ++ [v, w]) st.length = v := by
  unfold readH
  rw [List.get?_eq_getElem?, List.getElem?_append_right (Nat.le_refl _)]
  simp

@[simp]
theorem readH_append_pair_snd (st : Heap) (v w : List Tag) :
    readH (st ++ [v, w]) (st.length + 1) = w := by
  unfold readH
  rw [List.get?_eq_getElem?, List.getElem?_append_right (by omega)]
  simp

theorem readH_append_lt (st l : Heap) (a : Addr) (h : a < st.length) :
    readH (st ++ l) a = readH st a := by
  unfold readH
  rw [List.get?_eq_getElem?, List.get?_eq_getElem?,
    List.getElem?_append_left h]

theorem readH_appendAt_ne (st : Heap) (a b : Addr) (t : Tag) (h : b ≠ a) :
    readH (appendAt st a t) b = readH st b := by
  unfold readH appendAt
  rw [List.get?_eq_getElem?, List.get?_eq_getElem?,
    List.getElem?_set_ne (Ne.symm h)]

theorem readH_appendAt_self (st : Heap) (a : Addr) (t : Tag)
    (h : a < st.length) :
    readH (appendAt st a t) a = readH st a ++ [t] := by
  unfold readH appendAt
  rw [List.get?_eq_getElem?, List.getElem?_set_eq_of_lt _ h]
  rfl

/-! Dispatch and convert inversion lemmas. -/

theorem ctor_of_defaults_ne_query {p : FieldKind × WTCtor → Bool}
    {k : FieldKind} {ctor : WTCtor}
    (h : List.find? p defaultsTable = some (k, ctor)) :
    ctor ≠ .selectQuery ∧ ctor ≠ .modelSelect := by
  have hmem := List.mem_of_find?_eq_some h
  fin_cases hmem <;> simp

theorem dispatch_shape (conv : Converter) (f : FieldDesc) (kw : KwArgs)
    (fi : FieldInfo) (h : dispatch conv f kw = .ok fi) :
    fi.name = f.name ∧ fi.field.validators = kw.vaddr ∧
    (∀ a, fi.field.filters = some a → a = kw.faddr) ∧
    (f.null = true →
      fi.field.ctor = .selectQuery ∨ fi.field.ctor = .modelSelect →
      fi.field.allowBlank = some true) := by
  unfold dispatch handle_foreign_key at h
  repeat' split at h
  all_goals
    first
    | (injection h; done)
    | (injection h with h1; subst h1;
       refine ⟨rfl, rfl, ?_, ?_⟩ <;>
       first
       | (simp_all; done)
       | (intro _ hctor
          rcases ctor_of_defaults_ne_query (by assumption) with ⟨hq1, hq2⟩
          rcases hctor with h' | h'
          · exact absurd h' hq1
          · exact absurd h' hq2))

theorem buildKw_none (f : FieldDesc) (st : Heap) :
    buildKw f none st = (kwNone f st, convertHeapNone f st) := by
  unfold buildKw convertHeapNone kwNone
  simp [alloc]

theorem convert_none_eq (conv : Converter) (f : FieldDesc) (st : Heap) :
    convert conv f none st =
      (match dispatch conv f (kwNone f st) with
       | .ok fi => .ok (fi, convertHeapNone f st)
       | .error e => .error e) := by
  unfold convert
  rw [buildKw_none]

theorem readH_convertHeapNone_validators (f : FieldDesc) (st : Heap) :
    readH (convertHeapNone f st) st.length = ruleValidators f := by
  unfold convertHeapNone ruleValidators
  have hbase : readH (if f.null = true then
      appendAt (st ++ [[], []]) (st.length + 1) .nullFilter
    else st ++ [[], []]) st.length = [] := by
    by_cases hn : f.null = true
    · rw [if_pos hn,
        readH_appendAt_ne _ _ _ _
          (show st.length ≠ st.length + 1 by omega),
        readH_append_pair_fst]
    · rw [if_neg hn, readH_append_pair_fst]
  have hlt2 : st.length < (if f.null = true then
      appendAt (st ++ [[], []]) (st.length + 1) .nullFilter
    else st ++ [[], []]).length := by
    by_cases hn : f.null = true
    · rw [if_pos hn, length_appendAt]
      simp
    · rw [if_neg hn]
      simp
  by_cases h1 : ((f.null || f.default.isSome) && !truthyChoices f.choices)
      = true
  · rw [if_pos h1, if_pos h1, readH_appendAt_self _ _ _ hlt2, hbase]
    rfl
  · rw [if_neg h1, if_neg h1]
    by_cases h2 : isinstAny f.kind requiredTuple = true
    · rw [if_pos h2, if_pos h2, readH_appendAt_self _ _ _ hlt2, hbase]
      rfl
    · rw [if_neg h2, if_neg h2, hbase]

theorem readH_convertHeapNone_filters (f : FieldDesc) (st : Heap) :
    readH (convertHeapNone f st) (st.length + 1) =
      (if f.null then [.nullFilter] else []) := by
  unfold convertHeapNone
  have hbase : readH (if f.null = true then
      appendAt (st ++ [[], []]) (st.length + 1) .nullFilter
    else st ++ [[], []]) (st.length + 1) =
      (if f.null = true then [.nullFilter] else []) := by
    by_cases hn : f.null = true
    · rw [if_pos hn, if_pos hn,
        readH_appendAt_self _ _ _ (by simp), readH_append_pair_snd]
      rfl
    · rw [if_neg hn, if_neg hn, readH_append_pair_snd]
  by_cases h1 : ((f.null || f.default.isSome) && !truthyChoices f.choices)
      = true
  · rw [if_pos h1,
      readH_appendAt_ne _ _ _ _
        (show st.length + 1 ≠ st.length by omega), hbase]
  · rw [if_neg h1]
    by_cases h2 : isinstAny f.kind requiredTuple = true
    · rw [if_pos h2,
        readH_appendAt_ne _ _ _ _
          (show st.length + 1 ≠ st.length by omega), hbase]
    · rw [if_neg h2, hbase]

/-- Inversion of `convert` with no `field_args` override: the produced
field carries the fresh validator list, whose final content is exactly the
rule validator, and the fresh filter list, whose final content is the null
filter exactly for nullable descriptors. -/
theorem convert_none_inv (conv : Converter) (f : FieldDesc) (st : Heap)
    (fi : FieldInfo) (st' : Heap)
    (h : convert conv f none st = .ok (fi, st')) :
    fi.name = f.name ∧
    readH st' fi.field.validators = ruleValidators f ∧
    (∀ a, fi.field.filters = some a →
      readH st' a = (if f.null then [.nullFilter] else [])) ∧
    (f.null = true →
      fi.field.ctor = .selectQuery ∨ fi.field.ctor = .modelSelect →
      fi.field.allowBlank = some true) := by
  rw [convert_none_eq] at h
  cases hd : dispatch conv f (kwNone f st) with
  | error e => rw [hd] at h; exact absurd h (by simp)
  | ok fi0 =>
    rw [hd] at h
    simp at h
    obtain ⟨hfi, hst⟩ := h
    subst hfi
    subst hst
    obtain ⟨hname, hvad, hfil, hab⟩ := dispatch_shape conv f _ fi0 hd
    refine ⟨hname, ?_, ?_, hab⟩
    · rw [hvad]
      exact readH_convertHeapNone_validators f st
    · intro a ha
      rw [hfil a ha]
      exact readH_convertHeapNone_filters f st

/-! Claim C1. -/

/-- C1 (amended): for every descriptor converted with no caller-supplied
override, the returned field's validator list holds exactly one
`Optional` when the descriptor is nullable or has a non-null default and
has no truthy choice set; otherwise exactly one `Required` when the
descriptor is an instance of the source's required tuple (`CharField`,
`DateTimeField`, `ForeignKeyField`, `AutoField`, `TextField` and — beyond
the claim's enumeration — `UUIDField`); otherwise no validator. -/
theorem convert_validator_rule (conv : Converter) (f : FieldDesc)
    (st : Heap) (fi : FieldInfo) (st' : Heap)
    (h : convert conv f none st = .ok (fi, st')) :
    fi.name = f.name ∧
    readH st' fi.field.validators = ruleValidators f :=
  ⟨(convert_none_inv conv f st fi st' h).1,
   (convert_none_inv conv f st fi st' h).2.1⟩

/-- Witness for C1 at the non-null `CharField` primary key of
`NonIntPKModel`. -/
theorem convert_validator_rule_witness :
    convert {} idDesc none [] = .ok (idFI, idHeap) ∧
    (idFI.name = idDesc.name ∧
     readH idHeap idFI.field.validators = ruleValidators idDesc) :=
  ⟨by decide, convert_validator_rule {} idDesc [] idFI idHeap (by decide)⟩

/-- Counterexample for C1 as stated: a plain `UUIDField` descriptor is in
neither the claim's required enumeration nor the optional branch, so the
claim predicts no appended validator, yet the source's required tuple
contains `UUIDField` and `convert` appends a `Required` validator. -/
theorem uuid_required_beyond_spec :
    convert {} uuidDesc none [] = .ok (uuidFI, uuidHeap) ∧
    readH uuidHeap uuidFI.field.validators = [.requiredV] ∧
    isinstAny uuidDesc.kind specRequiredTags = false ∧
    ((uuidDesc.null || uuidDesc.default.isSome) &&
      !truthyChoices uuidDesc.choices) = false := by
  decide

/-! Claim C2. -/

theorem convert_ok_dispatch (conv : Converter) (f : FieldDesc)
    (fargs : Option FieldArgs) (st : Heap) (fi : FieldInfo) (st' : Heap)
    (h : convert conv f fargs st = .ok (fi, st')) :
    ∃ kw, dispatch conv f kw = .ok fi := by
  unfold convert at h
  repeat' split at h
  all_goals
    first
    | (injection h; done)
    | (injection h with h1
       rw [Prod.mk.injEq] at h1
       obtain ⟨h2, _⟩ := h1
       subst h2
       exact ⟨_, by assumption⟩)

theorem convert_name (conv : Converter) (f : FieldDesc)
    (fargs : Option FieldArgs) (st : Heap) (fi : FieldInfo) (st' : Heap)
    (h : convert conv f fargs st = .ok (fi, st')) : fi.name = f.name := by
  obtain ⟨kw, hd⟩ := convert_ok_dispatch conv f fargs st fi st' h
  exact (dispatch_shape conv f kw fi hd).1

theorem convertAll_names (conv : Converter)
    (args : List (String × FieldArgs)) :
    ∀ (fl : List FieldDesc) (st : Heap) (r : List FieldInfo) (st' : Heap),
      convertAll conv args fl st = .ok (r, st') →
      r.map FieldInfo.name = fl.map FieldDesc.name := by
  intro fl
  induction fl with
  | nil =>
    intro st r st' h
    simp [convertAll] at h
    rw [h.1]
    rfl
  | cons f rest ih =>
    intro st r st' h
    unfold convertAll at h
    split at h
    · exact absurd h (by simp)
    · next fi st1 heq =>
      split at h
      · exact absurd h (by simp)
      · next tail st2 heq2 =>
        injection h with h1
        rw [Prod.mk.injEq] at h1
        obtain ⟨h2, _⟩ := h1
        rw [← h2]
        simp [ih st1 tail st2 heq2, convert_name conv f _ st fi st1 heq]

/-- C2 (amended): the field enumerator keeps the descriptors in schema
order after dropping the primary key; a truthy (non-empty) `only` wins
over any `exclude`, keeping exactly the named descriptors; when `only` is
absent or empty (Python truthiness) and `exclude` is truthy, the
non-excluded descriptors are kept. -/
theorem model_fields_only_exclude (conv : Converter)
    (fields : List FieldDesc) (ap : Bool)
    (only exclude : Option (List String))
    (args : List (String × FieldArgs)) (st : Heap) (r : List FieldInfo)
    (st' : Heap)
    (h : model_fields conv fields ap only exclude args st = .ok (r, st')) :
    (truthyNames only = true →
      r.map FieldInfo.name =
        ((if ap = true then fields else fields.drop 1).filter
          (fun x => x.name ∈ only.getD [])).map FieldDesc.name) ∧
    (truthyNames only = false → truthyNames exclude = true →
      r.map FieldInfo.name =
        ((if ap = true then fields else fields.drop 1).filter
          (fun x => !(x.name ∈ exclude.getD []))).map FieldDesc.name) := by
  have hnames := convertAll_names conv args _ st r st' h
  constructor
  · intro ho
    rw [hnames]
    unfold selectFields
    rw [if_pos ho]
  · intro ho he
    rw [hnames]
    unfold selectFields
    rw [if_neg (by simp [ho]), if_pos he]

/-- Witness for C2 at `Entry` with `only=('title','content')` and an
`exclude` also supplied, reproducing the spec's worked example. -/
theorem model_fields_only_exclude_witness :
    model_fields {} entryFields false (some ["title", "content"])
        (some ["blog"]) [] [] = .ok (entryOnlyR, entryOnlyHeap) ∧
    truthyNames (some ["title", "content"]) = true ∧
    entryOnlyR.map FieldInfo.name =
      (((if false = true then entryFields else entryFields.drop 1).filter
        (fun x => x.name ∈ (some ["title", "content"]).getD [])).map
        FieldDesc.name) :=
  ⟨by decide, by decide,
    (model_fields_only_exclude {} entryFields false
      (some ["title", "content"]) (some ["blog"]) [] [] entryOnlyR
      entryOnlyHeap (by decide)).1 (by decide)⟩

/-- Counterexample for C2 as stated: with both arguments supplied, an
EMPTY `only` list does not take precedence — it is falsy, so `exclude`
applies.  The claim predicts a result containing exactly the descriptors
named in `only` (none), but the enumerator returns the three
non-excluded fields. -/
theorem empty_only_does_not_win :
    model_fields {} entryFields false (some []) (some ["title"]) [] []
      = .ok (entryBothR, entryBothHeap) ∧
    entryBothR.map FieldInfo.name = ["blog", "content", "pub_date"] ∧
    (entryFields.filter
      (fun x => x.name ∈ ([] : List String))).map FieldDesc.name = [] ∧
    entryBothR.map FieldInfo.name ≠ [] := by
  decide

/-! Claim C8. -/

theorem dispatch_unsupported (conv : Converter) (f : FieldDesc)
    (hov : f.name ∉ conv.overrides) (hwtf : f.has_wtf_field = false)
    (hsp : isinstAny f.kind (.foreignKeyField :: conv.additional) = false)
    (hdf : (defaultsTable.any (fun p => isinst f.kind p.1)) = false) :
    ∀ kw, dispatch conv f kw = .error (.unsupported f.kind) := by
  intro kw
  have h1 : (FieldKind.foreignKeyField :: conv.additional).find?
      (fun k => isinst f.kind k) = none := by
    rw [List.find?_eq_none]
    intro x hx
    simp only [isinstAny, List.any_eq_false] at hsp
    simp [hsp x hx]
  have h2 : defaultsTable.find? (fun p => isinst f.kind p.1) = none := by
    rw [List.find?_eq_none]
    intro x hx
    rw [List.any_eq_false] at hdf
    simp [hdf x hx]
  unfold dispatch
  rw [if_neg hov, if_neg (by simp [hwtf]), h1, h2]

theorem convertAll_mem_error (conv : Converter)
    (args : List (String × FieldArgs)) (f : FieldDesc)
    (hf : ∀ fargs st, convert conv f fargs st =
      .error (.unsupported f.kind)) :
    ∀ (fl : List FieldDesc) (st : Heap), f ∈ fl →
      ∃ k, convertAll conv args fl st = .error (.unsupported k) := by
  intro fl
  induction fl with
  | nil => intro st hmem; exact absurd hmem (List.not_mem_nil f)
  | cons g rest ih =>
    intro st hmem
    rcases List.mem_cons.mp hmem with hg | hmem2
    · refine ⟨f.kind, ?_⟩
      unfold convertAll
      rw [← hg, hf _ st]
    · cases hc : convert conv g (lookupArgs args g.name) st with
      | error e =>
        obtain ⟨k⟩ := e
        refine ⟨k, ?_⟩
        unfold convertAll
        rw [hc]
      | ok p =>
        obtain ⟨fi, st1⟩ := p
        obtain ⟨k, hk⟩ := ih st1 hmem2
        refine ⟨k, ?_⟩
        unfold convertAll
        rw [hc]
        show (match convertAll conv args rest st1 with
          | .error e => Except.error e
          | .ok (tail, st2) => Except.ok (fi :: tail, st2)) = _
        rw [hk]

/-- C8: a descriptor whose type is an instance of no registered special
handler and no registered default rule (and that carries no name override
or `wtf_field` hook) makes `convert` fail with the unsupported-type error
naming the offending type, and the failure propagates out of
form-class generation, which produces an error instead of any partial
field mapping. -/
theorem unsupported_type_fails (conv : Converter) (f : FieldDesc)
    (hov : f.name ∉ conv.overrides) (hwtf : f.has_wtf_field = false)
    (hsp : isinstAny f.kind (.foreignKeyField :: conv.additional) = false)
    (hdf : (defaultsTable.any (fun p => isinst f.kind p.1)) = false) :
    (∀ fargs st, convert conv f fargs st =
      .error (.unsupported f.kind)) ∧
    (∀ fields ap only exclude args st,
      f ∈ selectFields fields ap only exclude →
      ∃ k, model_form conv fields ap only exclude args st =
        .error (.unsupported k)) := by
  have hd := dispatch_unsupported conv f hov hwtf hsp hdf
  have hcv : ∀ fargs st, convert conv f fargs st =
      .error (.unsupported f.kind) := by
    intro fargs st
    unfold convert
    show (match dispatch conv f (buildKw f fargs st).1 with
      | .ok fi => Except.ok (fi, (buildKw f fargs st).2)
      | .error e => .error e) = _
    rw [hd]
  refine ⟨hcv, ?_⟩
  intro fields ap only exclude args st hmem
  exact convertAll_mem_error conv args f hcv _ st hmem

/-- Witness for C8 at a custom unregistered field class inside a
two-field model. -/
theorem unsupported_type_fails_witness :
    (geoDesc.name ∉ Converter.overrides {} ∧
     geoDesc.has_wtf_field = false ∧
     isinstAny geoDesc.kind
       (.foreignKeyField :: Converter.additional {}) = false ∧
     (defaultsTable.any (fun p => isinst geoDesc.kind p.1)) = false ∧
     geoDesc ∈ selectFields [idDesc, geoDesc] true none none) ∧
    convert {} geoDesc none [] =
      .error (.unsupported (.customField "GeoField")) ∧
    (∃ k, model_form {} [idDesc, geoDesc] true none none [] [] =
      .error (.unsupported k)) :=
  ⟨⟨by decide, by decide, by decide, by decide, by decide⟩,
   (unsupported_type_fails {} geoDesc (by decide) (by decide) (by decide)
      (by decide)).1 none [],
   (unsupported_type_fails {} geoDesc (by decide) (by decide) (by decide)
      (by decide)).2 [idDesc, geoDesc] true none none [] [] (by decide)⟩

/-! Claim C3. -/

/-- C3 (amended): generating two form classes from `NonIntPKModel` with
the same shared override object `{'id': {'validators': vs}}` holding a
NON-EMPTY list `vs` yields non-aliased per-field validator lists: the two
`id` fields reference distinct heap cells, each holding exactly the
override validators plus the one rule-appended validator, and an in-place
append to either cell leaves the other unchanged. -/
theorem model_form_no_validator_aliasing (v : Tag) (vs' : List Tag) :
    (model_form {} nonIntPkFields true none none sharedArgs [v :: vs']
       = .ok (form1Fields, heap1 (v :: vs'))) ∧
    (model_form {} nonIntPkFields true none none sharedArgs
        (heap1 (v :: vs'))
       = .ok (form2Fields, heap2 (v :: vs'))) ∧
    (∀ g1 g2, form1Fields.get? 0 = some g1 → form2Fields.get? 0 = some g2 →
      g1.name = "id" ∧ g2.name = "id" ∧
      g1.field.validators ≠ g2.field.validators ∧
      readH (heap2 (v :: vs')) g1.field.validators
        = (v :: vs') ++ [.requiredV] ∧
      readH (heap2 (v :: vs')) g2.field.validators
        = (v :: vs') ++ [.requiredV] ∧
      ((v :: vs') ++ [Tag.requiredV]).length = (v :: vs').length + 1 ∧
      (∀ t, readH (appendAt (heap2 (v :: vs')) g1.field.validators t)
        g2.field.validators = (v :: vs') ++ [.requiredV]) ∧
      (∀ t, readH (appendAt (heap2 (v :: vs')) g2.field.validators t)
        g1.field.validators = (v :: vs') ++ [.requiredV])) := by
  refine ⟨rfl, rfl, ?_⟩
  intro g1 g2 h1 h2
  injection h1 with h1
  injection h2 with h2
  subst h1
  subst h2
  refine ⟨rfl, rfl, by decide, rfl, rfl, by simp, fun t => rfl,
    fun t => rfl⟩

/-- Counterexample for C3 as stated: with a shared override holding an
EMPTY validators list, the first generation appends its rule validator to
the shared list in place (`convert` copies only non-empty lists), so the
second generated form's `id` field ends with 2 validators instead of the
claimed 0 + 1 (cf. the repository test `test_duplicate_validators`, which
covers only the non-empty case). -/
theorem shared_empty_override_grows :
    (model_form {} nonIntPkFields true none none sharedArgs [[]]
       = .ok (form1cx, heap1cx)) ∧
    (model_form {} nonIntPkFields true none none sharedArgs heap1cx
       = .ok (form2cx, heap2cx)) ∧
    (form2cx.get? 0).map (fun g => readH heap2cx g.field.validators)
      = some [Tag.requiredV, Tag.requiredV] ∧
    ([Tag.requiredV, .requiredV].length ≠ ([] : List Tag).length + 1) := by
  decide

/-- Witness for C3 at the singleton override list `[customV 0]`. -/
theorem model_form_no_validator_aliasing_witness :
    (model_form {} nonIntPkFields true none none sharedArgs
        [[Tag.customV 0]]
       = .ok (form1Fields, heap1 [Tag.customV 0])) ∧
    (model_form {} nonIntPkFields true none none sharedArgs
        (heap1 [Tag.customV 0])
       = .ok (form2Fields, heap2 [Tag.customV 0])) ∧
    (∀ g1 g2, form1Fields.get? 0 = some g1 → form2Fields.get? 0 = some g2 →
      g1.name = "id" ∧ g2.name = "id" ∧
      g1.field.validators ≠ g2.field.validators ∧
      readH (heap2 [Tag.customV 0]) g1.field.validators
        = [Tag.customV 0] ++ [.requiredV] ∧
      readH (heap2 [Tag.customV 0]) g2.field.validators
        = [Tag.customV 0] ++ [.requiredV] ∧
      ([Tag.customV 0] ++ [Tag.requiredV]).length
        = [Tag.customV 0].length + 1 ∧
      (∀ t, readH (appendAt (heap2 [Tag.customV 0]) g1.field.validators t)
        g2.field.validators = [Tag.customV 0] ++ [.requiredV]) ∧
      (∀ t, readH (appendAt (heap2 [Tag.customV 0]) g2.field.validators t)
        g1.field.validators = [Tag.customV 0] ++ [.requiredV])) :=
  model_form_no_validator_aliasing (Tag.customV 0) []

/-! Claim C4. -/

/-- C4 (amended): for EVERY nullable descriptor, `convert` appends the
empty-string-to-null filter (the produced field's filter list is exactly
`[handle_null_filter]` whenever the field keeps a filter list), and that
filter maps exactly the empty string to `None` and every other value to
itself; for nullable descriptors with no truthy choices the `Optional`
validator is appended; consequently, under the modelled WTForms pipeline,
submitting the empty string to the generated single-input field yields
`data = None` and validates — EXCEPT for boolean descriptors, whose field
blindly coerces the empty string to `False` (still validating); a
nullable foreign key yields a blank-allowing select field that resolves
the empty submission to `None` and validates.  (The composite date-time
field takes two sub-inputs rather than one raw string.) -/
theorem nullable_empty_string_handling (conv : Converter) (f : FieldDesc)
    (st : Heap) (fi : FieldInfo) (st' : Heap)
    (hnull : f.null = true)
    (hok : convert conv f none st = .ok (fi, st')) :
    handle_null_filter (some (.pstr "")) = none ∧
    (∀ d, d ≠ some (.pstr "") → handle_null_filter d = d) ∧
    (∀ a, fi.field.filters = some a → readH st' a = [.nullFilter]) ∧
    (truthyChoices f.choices = false →
      readH st' fi.field.validators = [.optionalV]) ∧
    (∀ c, c ∈ singleInputCtors → c ≠ .booleanF →
      processAndValidate c [.nullFilter] [.optionalV] (some "")
        = (none, true)) ∧
    (processAndValidate .booleanF [.nullFilter] [.optionalV] (some "")
      = (some (.pbool false), true)) ∧
    (fi.field.ctor = .selectQuery ∨ fi.field.ctor = .modelSelect →
      fi.field.allowBlank = some true) ∧
    (∀ (q : List Row) (bt : String),
      (((SelectQueryField.mk q true bt none none).process_formdata
        [.pstr ""]).pre_validate).1 = .ok ()) := by
  obtain ⟨_, hval, hfil, hab⟩ := convert_none_inv conv f st fi st' hok
  refine ⟨rfl, ?_, ?_, ?_, ?_, by decide, hab hnull, ?_⟩
  · intro d hd
    unfold handle_null_filter
    rw [if_neg hd]
  · intro a ha
    rw [hfil a ha, if_pos hnull]
  · intro hch
    rw [hval]
    unfold ruleValidators
    rw [if_pos (by simp [hnull, hch])]
  · intro c hc hcb
    fin_cases hc <;> first | (exact absurd rfl hcb) | decide
  · intro q bt
    have hfind : q.find? (fun r => pkMatches r.pk (PyVal.pstr ""))
        = none := by
      rw [List.find?_eq_none]
      intro x hx
      simp [pkMatches, parseIntStr, parseNatChars]
    simp [SelectQueryField.process_formdata, SelectQueryField.setData,
      SelectQueryField.pre_validate, SelectQueryField.getData,
      SelectQueryField.get_model, hfind]

/-- Witness for C4 at the nullable `CharField` of `NullFieldsModel`. -/
theorem nullable_empty_string_handling_witness :
    (cDesc.null = true ∧
     convert {} cDesc none [] = .ok (cFI, cHeap)) ∧
    (handle_null_filter (some (.pstr "")) = none ∧
     (∀ d, d ≠ some (.pstr "") → handle_null_filter d = d) ∧
     (∀ a, cFI.field.filters = some a → readH cHeap a = [.nullFilter]) ∧
     (truthyChoices cDesc.choices = false →
       readH cHeap cFI.field.validators = [.optionalV]) ∧
     (∀ c, c ∈ singleInputCtors → c ≠ .booleanF →
       processAndValidate c [.nullFilter] [.optionalV] (some "")
         = (none, true)) ∧
     (processAndValidate .booleanF [.nullFilter] [.optionalV] (some "")
       = (some (.pbool false), true)) ∧
     (cFI.field.ctor = .selectQuery ∨ cFI.field.ctor = .modelSelect →
       cFI.field.allowBlank = some true) ∧
     (∀ (q : List Row) (bt : String),
       (((SelectQueryField.mk q true bt none none).process_formdata
         [.pstr ""]).pre_validate).1 = .ok ())) :=
  ⟨⟨by decide, by decide⟩,
   nullable_empty_string_handling {} cDesc [] cFI cHeap (by decide)
     (by decide)⟩

/-- Counterexample for C4 as stated: the nullable `BooleanField` of
`NullFieldsModel` is a nullable descriptor with no choices, yet
submitting the empty string yields `data = False`, not `None` (the
WTForms boolean field blindly coerces, as the repository's own
`test_null_form_saving` documents), although the field still validates. -/
theorem nullable_boolean_empty_not_none :
    boolNullDesc.null = true ∧
    truthyChoices boolNullDesc.choices = false ∧
    boolNullDesc.default = none ∧
    convert {} boolNullDesc none [] = .ok (boolFI, boolHeap) ∧
    boolFI.field.ctor = .booleanF ∧
    readH boolHeap boolFI.field.validators = [.optionalV] ∧
    boolFI.field.filters = some 1 ∧
    readH boolHeap 1 = [.nullFilter] ∧
    processAndValidate .booleanF [.nullFilter] [.optionalV] (some "")
      = (some (.pbool false), true) ∧
    some (PyVal.pbool false) ≠ (none : Option PyVal) := by
  decide

end WTFPeewee
